import Mathlib

/-!
# TWS-Backend: shallow embedding and verification

A shallow embedding of the TWS backend (an Express/Mongoose REST service:
auth with user/admin roles, trading signals gated by a premium tier, and a
social feed with like-toggles and comments), together with proofs of the
claims of the specification about it.

External collaborators (bcrypt, jsonwebtoken, the express-validator email check,
and the MongoDB store) are modelled by executable Lean functions that expose
exactly the contracts the routes rely on; the route handlers themselves are
translated line by line from the source.
-/

namespace TWS

/-- Model of the external bcrypt collaborator: a salted one-way hash.  The
routes only rely on hash/compare consistency, which this model provides. -/
def bcryptHash (p : String) : String := "bcrypt$" ++ p

/-- Model of `bcrypt.compare`: succeeds exactly when the plaintext hashes to
the stored digest. -/
def bcryptCompare (p h : String) : Bool := bcryptHash p == h

/-- Model of a signed JWT: the payload (a user id, per `jwt.sign({userId})`)
together with the secret it was signed with. -/
structure Token where
  userId : Nat
  secret : String
deriving DecidableEq

/-- Model of `jwt.sign({ userId }, secret)`. -/
def jwtSign (userId : Nat) (secret : String) : Token :=
  { userId := userId, secret := secret }

/-- Model of `jwt.verify(token, secret)`: yields the embedded user id when
the signature checks out, fails otherwise. -/
def jwtVerify (t : Token) (secret : String) : Option Nat :=
  if t.secret == secret then some t.userId else none

/-- Model of the express-validator `isEmail` check; the routes treat it as an
opaque boolean gate on the email syntax. -/
def isEmail (s : String) : Bool := s.data.contains '@'

/-- UserSchema: email, password hash, isPremium (default false), role
(enum user/admin, default user), createdAt. -/
structure User where
  id : Nat
  email : String
  password : String
  isPremium : Bool
  role : String
  createdAt : Nat
deriving DecidableEq

/-- SignalSchema: title, description, type (enum free/premium), createdAt,
createdBy. -/
structure Signal where
  title : String
  description : String
  type : String
  createdAt : Nat
  createdBy : Nat
deriving DecidableEq

/-- Embedded comment subdocument of FeedSchema: user, text, createdAt. -/
structure Comment where
  user : Nat
  text : String
  createdAt : Nat
deriving DecidableEq

/-- FeedSchema: imageUrl, caption, likes (list of user ids), embedded
comments, createdAt, createdBy. -/
structure FeedPost where
  id : Nat
  imageUrl : String
  caption : String
  likes : List Nat
  comments : List Comment
  createdAt : Nat
  createdBy : Nat
deriving DecidableEq

/-- The MongoDB document store: the three collections, plus a counter
modelling ObjectId generation for freshly saved documents. -/
structure Store where
  users : List User
  signals : List Signal
  feed : List FeedPost
  nextId : Nat
deriving DecidableEq

/-- `User.findOne({ email })` — note: no role filter. -/
def findUserByEmail (st : Store) (email : String) : Option User :=
  st.users.find? (fun u => u.email == email)

/-- `User.findOne({ email, role })`. -/
def findUserByEmailRole (st : Store) (email role : String) : Option User :=
  st.users.find? (fun u => u.email == email && u.role == role)

/-- `User.findById(id)`. -/
def findUserById (st : Store) (uid : Nat) : Option User :=
  st.users.find? (fun u => u.id == uid)

/-- `Feed.findById(id)`. -/
def findFeedById (st : Store) (pid : Nat) : Option FeedPost :=
  st.feed.find? (fun p => p.id == pid)

/-- authMiddleware: extract the bearer token (modelled as an optional
`Token`), 401 if absent; verify it, 401 on failure; resolve the embedded
user id, 401 if the user no longer exists; otherwise attach the user. -/
def authenticate (st : Store) (secret : String) (authHeader : Option Token) :
    Except Nat User :=
  match authHeader with
  | none => Except.error 401
  | some t =>
    match jwtVerify t secret with
    | none => Except.error 401
    | some uid =>
      match findUserById st uid with
      | none => Except.error 401
      | some u => Except.ok u

/-- validateSignup: `isEmail` on email and length ≥ 6 on password. -/
def validSignupShape (email password : String) : Bool :=
  isEmail email && decide (password.length ≥ 6)

/-- validateLogin: `isEmail` on email and non-empty password. -/
def validLoginShape (email password : String) : Bool :=
  isEmail email && !password.isEmpty

/-- Request body of POST /api/auth/user/signup; `isPremium` is optional
(`none` models the key being absent). -/
structure SignupReq where
  email : String
  password : String
  isPremium : Option Bool
deriving DecidableEq

/-- Response of POST /api/auth/user/signup.  `userIsPremium` is the
`isPremium` key of the user object in the response; `none` models the key being
absent from the serialized JSON (a JS `undefined` is dropped). -/
structure SignupResp where
  status : Nat
  token : Option Token
  userId : Option Nat
  userEmail : Option String
  userIsPremium : Option Bool
deriving DecidableEq

/-- Error response of the signup routes (400 validation / duplicate email,
500 server error): no token, no user object. -/
def signupErr (status : Nat) : SignupResp :=
  { status := status, token := none, userId := none, userEmail := none,
    userIsPremium := none }

/-- POST /api/auth/user/signup: validate shape; reject duplicate email (no
role filter); hash the password; save a User with role "user" and
`isPremium: isPremium || false`; sign a token; respond 201 with
`{token, user: {id, email, isPremium}}` where `isPremium` is the raw
request value. -/
def userSignup (st : Store) (secret : String) (req : SignupReq) (now : Nat) :
    SignupResp × Store :=
  if !(validSignupShape req.email req.password) then (signupErr 400, st)
  else match findUserByEmail st req.email with
  | some _ => (signupErr 400, st)
  | none =>
    let uid := st.nextId
    let user : User :=
      { id := uid, email := req.email, password := bcryptHash req.password,
        isPremium := req.isPremium.getD false, role := "user", createdAt := now }
    let st' := { st with users := st.users ++ [user], nextId := st.nextId + 1 }
    ({ status := 201, token := some (jwtSign uid secret), userId := some uid,
       userEmail := some req.email, userIsPremium := req.isPremium }, st')

/-- Response of POST /api/auth/admin/signup. -/
structure AdminSignupResp where
  status : Nat
  token : Option Token
  userId : Option Nat
  userEmail : Option String
  userRole : Option String
deriving DecidableEq

/-- POST /api/auth/admin/signup: same shape validation and role-blind
duplicate check; saves a User with role "admin" (isPremium falls to the
schema default false); responds 201 with `{token, user:{id,email,role}}`. -/
def adminSignup (st : Store) (secret : String) (email password : String)
    (now : Nat) : AdminSignupResp × Store :=
  if !(validSignupShape email password) then
    ({ status := 400, token := none, userId := none, userEmail := none,
       userRole := none }, st)
  else match findUserByEmail st email with
  | some _ =>
    ({ status := 400, token := none, userId := none, userEmail := none,
       userRole := none }, st)
  | none =>
    let uid := st.nextId
    let user : User :=
      { id := uid, email := email, password := bcryptHash password,
        isPremium := false, role := "admin", createdAt := now }
    let st' := { st with users := st.users ++ [user], nextId := st.nextId + 1 }
    ({ status := 201, token := some (jwtSign uid secret), userId := some uid,
       userEmail := some email, userRole := some "admin" }, st')

/-- Response of the login routes.  `failure status body` models
`res.status(status).json({ error: body })`, so two failures with the same
constructor arguments are byte-identical on the wire. -/
inductive LoginResp where
  | validationErr : LoginResp
  | failure (status : Nat) (body : String) : LoginResp
  | success (token : Token) (id : Nat) (email : String) (isPremium : Bool) :
      LoginResp
deriving DecidableEq

/-- The opaque 401 body both user-login failure branches produce. -/
def invalidCredentialsResp : LoginResp := LoginResp.failure 401 "Invalid credentials"

/-- POST /api/auth/user/login: validate shape; look up by
`{email, role: "user"}`; 401 "Invalid credentials" when no match; 401 with
the same body when the bcrypt comparison fails; otherwise 200 with a fresh
token. -/
def userLogin (st : Store) (secret : String) (email password : String) :
    LoginResp :=
  if !(validLoginShape email password) then LoginResp.validationErr
  else match findUserByEmailRole st email "user" with
  | none => LoginResp.failure 401 "Invalid credentials"
  | some u =>
    if !(bcryptCompare password u.password) then
      LoginResp.failure 401 "Invalid credentials"
    else LoginResp.success (jwtSign u.id secret) u.id email u.isPremium

/-- Descending creation-time order used by `.sort({ createdAt: -1 })`. -/
def byCreatedAtDesc (a b : Signal) : Prop := b.createdAt ≤ a.createdAt

instance : DecidableRel byCreatedAtDesc := fun _ _ => Nat.decLe _ _

instance : IsTotal Signal byCreatedAtDesc :=
  ⟨fun a b => Nat.le_total b.createdAt a.createdAt⟩

instance : IsTrans Signal byCreatedAtDesc :=
  ⟨fun _ _ _ h1 h2 => Nat.le_trans h2 h1⟩

/-- The Mongo query built by GET /api/signals: `{}` for premium callers,
`{type: "free"}` otherwise, and `createdAt: {$gt: since}` when a `since`
cursor is supplied. -/
def signalQueryMatches (premium : Bool) (since : Option Nat) (s : Signal) :
    Bool :=
  (premium || s.type == "free") &&
    (match since with
     | none => true
     | some t => decide (s.createdAt > t))

/-- GET /api/signals: filter the signals collection by the caller tier and
the optional `since` cursor, sorted by creation time descending. -/
def listSignals (st : Store) (caller : User) (since : Option Nat) :
    List Signal :=
  List.insertionSort byCreatedAtDesc
    (st.signals.filter (signalQueryMatches caller.isPremium since))

/-- The like-toggle on a likes list: `indexOf` then `push` when absent
(`=== -1`) or `splice(index, 1)` when present. -/
def toggleLike (uid : Nat) (likes : List Nat) : List Nat :=
  if likes.contains uid then likes.eraseIdx (List.indexOf uid likes)
  else likes ++ [uid]

/-- Response of the feed mutation routes: a status and, on success, the
(updated) post as returned in the body. -/
structure FeedResp where
  status : Nat
  post : Option FeedPost
deriving DecidableEq

/-- The FeedPost constructed by POST /api/feed: schema defaults give it
empty likes and comments. -/
def mkFeedPost (id : Nat) (imageUrl caption : String) (now creator : Nat) :
    FeedPost :=
  { id := id, imageUrl := imageUrl, caption := caption, likes := [],
    comments := [], createdAt := now, createdBy := creator }

/-- POST /api/feed: authenticate, require admin (403 otherwise), 400 when
either field is falsy, else save a fresh post and respond 201. -/
def createFeedPost (st : Store) (secret : String) (authHeader : Option Token)
    (imageUrl caption : String) (now : Nat) : FeedResp × Store :=
  match authenticate st secret authHeader with
  | Except.error s => ({ status := s, post := none }, st)
  | Except.ok user =>
    if user.role != "admin" then ({ status := 403, post := none }, st)
    else if imageUrl.isEmpty || caption.isEmpty then
      ({ status := 400, post := none }, st)
    else
      let post := mkFeedPost st.nextId imageUrl caption now user.id
      ({ status := 201, post := some post },
       { st with feed := st.feed ++ [post], nextId := st.nextId + 1 })

/-- POST /api/feed/:id/like: authenticate; 404 when the post is missing;
otherwise toggle the id of the caller in the likes list, save, and return the
updated post. -/
def likeFeedPost (st : Store) (secret : String) (authHeader : Option Token)
    (postId : Nat) : FeedResp × Store :=
  match authenticate st secret authHeader with
  | Except.error s => ({ status := s, post := none }, st)
  | Except.ok user =>
    match findFeedById st postId with
    | none => ({ status := 404, post := none }, st)
    | some post =>
      let post' := { post with likes := toggleLike user.id post.likes }
      ({ status := 200, post := some post' },
       { st with feed := st.feed.map (fun p => if p.id == postId then post' else p) })

/-- POST /api/feed/:id/comment: authenticate; 400 when the text is falsy
(checked before the lookup); 404 when the post is missing; otherwise append
`{user, text, createdAt: now}` to the comments of the post, save, and return the
updated post. -/
def addComment (st : Store) (secret : String) (authHeader : Option Token)
    (postId : Nat) (text : String) (now : Nat) : FeedResp × Store :=
  match authenticate st secret authHeader with
  | Except.error s => ({ status := s, post := none }, st)
  | Except.ok user =>
    if text.isEmpty then ({ status := 400, post := none }, st)
    else match findFeedById st postId with
    | none => ({ status := 404, post := none }, st)
    | some post =>
      let post' :=
        { post with
          comments := post.comments ++ [{ user := user.id, text := text, createdAt := now }] }
      ({ status := 200, post := some post' },
       { st with feed := st.feed.map (fun p => if p.id == postId then post' else p) })

/-! ## Witness fixtures -/

/-- An empty store. -/
def emptyStore : Store := { users := [], signals := [], feed := [], nextId := 0 }

/-- A concrete valid signup request with the tier flag omitted. -/
def wReq : SignupReq := { email := "a@x.com", password := "abcdef", isPremium := none }

/-- A stored admin holding the email `a@x.com`. -/
def wAdmin : User :=
  { id := 0, email := "a@x.com", password := bcryptHash "abcdef",
    isPremium := false, role := "admin", createdAt := 0 }

/-- A store whose only account is the admin `wAdmin`. -/
def adminStore : Store := { users := [wAdmin], signals := [], feed := [], nextId := 1 }

/-- A stored non-premium, non-admin user. -/
def alice : User :=
  { id := 0, email := "u@x.com", password := bcryptHash "abcdef",
    isPremium := false, role := "user", createdAt := 0 }

/-- A concrete feed post with one like and one comment. -/
def wPost : FeedPost :=
  { id := 1, imageUrl := "i", caption := "c", likes := [7],
    comments := [{ user := 7, text := "hi", createdAt := 2 }],
    createdAt := 3, createdBy := 9 }

/-- A store holding `alice` and the post `wPost`. -/
def feedStore : Store :=
  { users := [alice], signals := [], feed := [wPost], nextId := 2 }

/-- A concrete free signal. -/
def wFreeSignal : Signal :=
  { title := "t", description := "d", type := "free", createdAt := 7, createdBy := 0 }

/-- A concrete premium signal. -/
def wPremiumSignal : Signal :=
  { title := "u", description := "e", type := "premium", createdAt := 4, createdBy := 0 }

/-- A store holding `alice` plus one free and one premium signal. -/
def signalStore : Store :=
  { users := [alice], signals := [wFreeSignal, wPremiumSignal], feed := [], nextId := 2 }

/-! ## Helper lemmas -/

theorem jwtVerify_jwtSign (uid : Nat) (secret : String) :
    jwtVerify (jwtSign uid secret) secret = some uid := by
  simp [jwtVerify, jwtSign]

theorem isEmpty_eq_false_of_ne {s : String} (h : s ≠ "") : s.isEmpty = false := by
  rw [Bool.eq_false_iff]
  intro hc
  exact h ((String.isEmpty_iff s).mp hc)

/-! ## C1: the signup token authenticates as the created user -/

/-- C1: for every valid user-signup payload (syntactically valid email not
already in the store, password of length ≥ 6, fresh ids in the store), the
token of the 201 response, presented to `authenticate`, verifies and resolves to
exactly the user record created by that signup. -/
theorem signup_token_resolves_to_created_user
    (st : Store) (secret : String) (req : SignupReq) (now : Nat)
    (hshape : validSignupShape req.email req.password = true)
    (hdup : ∀ u ∈ st.users, u.email ≠ req.email)
    (hfresh : ∀ u ∈ st.users, u.id < st.nextId) :
    ∃ u : User,
      (userSignup st secret req now).1.status = 201 ∧
      (userSignup st secret req now).2.users = st.users ++ [u] ∧
      authenticate (userSignup st secret req now).2 secret
        (userSignup st secret req now).1.token = Except.ok u := by
  have hfind : findUserByEmail st req.email = none := by
    rw [findUserByEmail, List.find?_eq_none]
    intro u hu
    simpa using hdup u hu
  have hid : List.find? (fun u => u.id == st.nextId) st.users = none := by
    rw [List.find?_eq_none]
    intro u hu
    simpa using Nat.ne_of_lt (hfresh u hu)
  refine ⟨{ id := st.nextId, email := req.email, password := bcryptHash req.password,
            isPremium := req.isPremium.getD false, role := "user", createdAt := now },
          ?_, ?_, ?_⟩ <;>
    simp [userSignup, hshape, hfind, authenticate, jwtVerify, jwtSign,
      findUserById, List.find?_append, hid]

/-- Witness for C1: a concrete signup against the empty store. -/
theorem signup_token_resolves_to_created_user_witness :
    ∃ u : User,
      (userSignup emptyStore "s" wReq 0).1.status = 201 ∧
      (userSignup emptyStore "s" wReq 0).2.users = emptyStore.users ++ [u] ∧
      authenticate (userSignup emptyStore "s" wReq 0).2 "s"
        (userSignup emptyStore "s" wReq 0).1.token = Except.ok u :=
  signup_token_resolves_to_created_user emptyStore "s" wReq 0 (by decide)
    (fun u hu => absurd hu (List.not_mem_nil u))
    (fun u hu => absurd hu (List.not_mem_nil u))

/-! ## C2: signup persistence vs. response tier flag -/

/-- C2 counterexample: signing up with the tier flag omitted persists
`isPremium = false`, but the user object of the 201 response carries the raw
request value (`none`, i.e. no `isPremium` key once serialized), so the
response does not report the persisted value `false`. -/
theorem signup_response_tierflag_counterexample :
    (userSignup emptyStore "s" wReq 0).1.status = 201 ∧
    (userSignup emptyStore "s" wReq 0).2.users.map User.isPremium = [false] ∧
    (userSignup emptyStore "s" wReq 0).1.userIsPremium ≠ some false := by
  exact ⟨by decide, by decide, by decide⟩

/-- C2 (amended): the success path persists a User with role "user" and
tier flag `isPremium || false`, and the user object of the 201 response contains
the id and email; but its tier-flag field echoes the raw request value —
absent when the request omitted it — rather than the persisted value. -/
theorem signup_persists_tier_response_echoes_request
    (st : Store) (secret : String) (req : SignupReq) (now : Nat)
    (hshape : validSignupShape req.email req.password = true)
    (hdup : ∀ u ∈ st.users, u.email ≠ req.email) :
    (userSignup st secret req now).1.status = 201 ∧
    (userSignup st secret req now).2.users =
      st.users ++ [{ id := st.nextId, email := req.email,
                     password := bcryptHash req.password,
                     isPremium := req.isPremium.getD false, role := "user",
                     createdAt := now }] ∧
    (userSignup st secret req now).1.userId = some st.nextId ∧
    (userSignup st secret req now).1.userEmail = some req.email ∧
    (userSignup st secret req now).1.userIsPremium = req.isPremium := by
  have hfind : findUserByEmail st req.email = none := by
    rw [findUserByEmail, List.find?_eq_none]
    intro u hu
    simpa using hdup u hu
  simp [userSignup, hshape, hfind]

/-- Witness for the amended C2 at a concrete signup. -/
theorem signup_persists_tier_response_echoes_request_witness :
    (userSignup emptyStore "s" wReq 0).1.status = 201 ∧
    (userSignup emptyStore "s" wReq 0).2.users =
      emptyStore.users ++ [{ id := emptyStore.nextId, email := wReq.email,
                             password := bcryptHash wReq.password,
                             isPremium := wReq.isPremium.getD false,
                             role := "user", createdAt := 0 }] ∧
    (userSignup emptyStore "s" wReq 0).1.userId = some emptyStore.nextId ∧
    (userSignup emptyStore "s" wReq 0).1.userEmail = some wReq.email ∧
    (userSignup emptyStore "s" wReq 0).1.userIsPremium = wReq.isPremium :=
  signup_persists_tier_response_echoes_request emptyStore "s" wReq 0 (by decide)
    (fun u hu => absurd hu (List.not_mem_nil u))

/-! ## C3: role-blind duplicate-email rejection -/

/-- C3: a signup (user or admin endpoint) whose email is already held by a
stored User of any role fails with status 400 and leaves the store
unchanged; the duplicate check does not filter by role. -/
theorem duplicate_email_signup_rejected
    (st : Store) (secret : String) (req : SignupReq) (now : Nat)
    (u : User) (hu : u ∈ st.users) (hemail : u.email = req.email)
    (hshape : validSignupShape req.email req.password = true) :
    (userSignup st secret req now).1.status = 400 ∧
    (userSignup st secret req now).2 = st ∧
    (adminSignup st secret req.email req.password now).1.status = 400 ∧
    (adminSignup st secret req.email req.password now).2 = st := by
  have hsome : (findUserByEmail st req.email).isSome = true := by
    rw [findUserByEmail, List.find?_isSome]
    exact ⟨u, hu, by simp [hemail]⟩
  obtain ⟨v, hv⟩ := Option.isSome_iff_exists.mp hsome
  simp [userSignup, adminSignup, hshape, hv, signupErr]

/-- Witness for C3: a user signup is rejected because an admin already
holds the email. -/
theorem duplicate_email_signup_rejected_witness :
    (userSignup adminStore "s" wReq 0).1.status = 400 ∧
    (userSignup adminStore "s" wReq 0).2 = adminStore ∧
    (adminSignup adminStore "s" wReq.email wReq.password 0).1.status = 400 ∧
    (adminSignup adminStore "s" wReq.email wReq.password 0).2 = adminStore :=
  duplicate_email_signup_rejected adminStore "s" wReq 0 wAdmin
    (List.mem_singleton.mpr rfl) rfl (by decide)

/-! ## C4: opaque, role-filtered login failures -/

/-- C4: user login looks up the store by (email, role="user"); for a
well-formed request, both failure causes — no matching user (including an
email held only by non-user accounts) and a password-hash mismatch —
produce the identical opaque 401 response. -/
theorem user_login_failures_indistinguishable
    (st : Store) (secret email password : String)
    (hshape : validLoginShape email password = true) :
    (findUserByEmailRole st email "user" = none →
      userLogin st secret email password = invalidCredentialsResp) ∧
    (∀ u, findUserByEmailRole st email "user" = some u →
      bcryptCompare password u.password = false →
      userLogin st secret email password = invalidCredentialsResp) ∧
    ((∀ u ∈ st.users, u.email = email → u.role ≠ "user") →
      userLogin st secret email password = invalidCredentialsResp) := by
  refine ⟨?_, ?_, ?_⟩
  · intro hnone
    simp [userLogin, hshape, hnone, invalidCredentialsResp]
  · intro u hsome hcmp
    simp [userLogin, hshape, hsome, hcmp, invalidCredentialsResp]
  · intro hrole
    have hnone : findUserByEmailRole st email "user" = none := by
      rw [findUserByEmailRole, List.find?_eq_none]
      intro v hv
      simp only [Bool.and_eq_true, beq_iff_eq, not_and]
      intro he
      exact hrole v hv he
    simp [userLogin, hshape, hnone, invalidCredentialsResp]

/-- Witness for C4: logging in with correct admin credentials through
the user endpoint yields the opaque invalid-credentials response. -/
theorem user_login_failures_indistinguishable_witness :
    userLogin adminStore "s" "a@x.com" "abcdef" = invalidCredentialsResp :=
  (user_login_failures_indistinguishable adminStore "s" "a@x.com" "abcdef"
      (by decide)).2.2
    (fun u hu _ => by
      rw [List.mem_singleton.mp hu]
      decide)

/-! ## C5: tier-gated, cursor-filtered, sorted signal listing -/

/-- C5: the signal list of a non-premium caller contains only `free` signals and
the list of a premium caller is the whole collection without tier filtering; in
both cases a supplied `since` cursor keeps exactly the signals created
strictly after it, and the result is sorted by creation time descending. -/
theorem signals_list_visibility
    (st : Store) (caller : User) (since : Option Nat) :
    (∀ s ∈ listSignals st caller since,
      (caller.isPremium = false → s.type = "free") ∧
      (∀ t, since = some t → t < s.createdAt)) ∧
    (∀ s, s ∈ listSignals st caller since ↔
      s ∈ st.signals ∧ signalQueryMatches caller.isPremium since s = true) ∧
    (caller.isPremium = true → ∀ s, s ∈ listSignals st caller since ↔
      s ∈ st.signals ∧ ∀ t, since = some t → t < s.createdAt) ∧
    List.Sorted byCreatedAtDesc (listSignals st caller since) := by
  have hmem : ∀ s, s ∈ listSignals st caller since ↔
      s ∈ st.signals ∧ signalQueryMatches caller.isPremium since s = true := by
    intro s
    rw [listSignals, List.mem_insertionSort, List.mem_filter]
  have hmatch : ∀ s, signalQueryMatches caller.isPremium since s = true →
      (caller.isPremium = false → s.type = "free") ∧
      (∀ t, since = some t → t < s.createdAt) := by
    intro s hs
    simp only [signalQueryMatches, Bool.and_eq_true] at hs
    obtain ⟨h1, h2⟩ := hs
    constructor
    · intro hp
      rw [hp, Bool.false_or, beq_iff_eq] at h1
      exact h1
    · intro t ht
      subst ht
      simpa using h2
  refine ⟨fun s hs => hmatch s ((hmem s).mp hs).2, hmem, ?_, ?_⟩
  · intro hp s
    rw [hmem s]
    constructor
    · rintro ⟨h1, h2⟩
      exact ⟨h1, (hmatch s h2).2⟩
    · rintro ⟨h1, h2⟩
      refine ⟨h1, ?_⟩
      simp only [signalQueryMatches, hp, Bool.true_or, Bool.true_and]
      cases since with
      | none => rfl
      | some t => simpa using h2 t rfl
  · exact List.sorted_insertionSort byCreatedAtDesc _

/-- Witness for C5: with one free and one premium signal stored, the
non-premium user `alice` sees exactly the free one. -/
theorem signals_list_visibility_witness :
    (wFreeSignal ∈ listSignals signalStore alice none ↔
      wFreeSignal ∈ signalStore.signals ∧
        signalQueryMatches alice.isPremium none wFreeSignal = true) ∧
    (wPremiumSignal ∈ listSignals signalStore alice none ↔
      wPremiumSignal ∈ signalStore.signals ∧
        signalQueryMatches alice.isPremium none wPremiumSignal = true) :=
  ⟨(signals_list_visibility signalStore alice none).2.1 wFreeSignal,
   (signals_list_visibility signalStore alice none).2.1 wPremiumSignal⟩

/-! ## C6: double like-toggle restores membership -/

theorem contains_eq_true_of_mem {l : List Nat} {a : Nat} (h : a ∈ l) :
    l.contains a = true := by
  simpa using h

theorem contains_eq_false_of_not_mem {l : List Nat} {a : Nat} (h : a ∉ l) :
    l.contains a = false := by
  simpa using h

theorem toggleLike_of_mem {uid : Nat} {likes : List Nat} (h : uid ∈ likes) :
    toggleLike uid likes = likes.erase uid := by
  rw [toggleLike, if_pos (contains_eq_true_of_mem h),
    List.eraseIdx_indexOf_eq_erase]

theorem toggleLike_of_not_mem {uid : Nat} {likes : List Nat} (h : uid ∉ likes) :
    toggleLike uid likes = likes ++ [uid] := by
  rw [toggleLike, if_neg]
  simpa using h

/-- C6: `toggleLike` removes the id of the caller when present (first occurrence,
via `indexOf`/`splice`) and appends it when absent; on any likes list in
which the caller appears at most once — as on every reachable post —
toggling twice restores the original membership. -/
theorem like_toggle_twice_restores_membership
    (uid : Nat) (likes : List Nat) (h : List.count uid likes ≤ 1) :
    (uid ∈ likes → toggleLike uid likes = likes.erase uid) ∧
    (uid ∉ likes → toggleLike uid likes = likes ++ [uid]) ∧
    (∀ x, x ∈ toggleLike uid (toggleLike uid likes) ↔ x ∈ likes) := by
  refine ⟨fun hm => toggleLike_of_mem hm, fun hm => toggleLike_of_not_mem hm, ?_⟩
  intro x
  by_cases hm : uid ∈ likes
  · rw [toggleLike_of_mem hm]
    have hnm : uid ∉ likes.erase uid := by
      rw [← List.count_eq_zero, List.count_erase_self]
      have h1 : 0 < List.count uid likes := List.count_pos_iff.mpr hm
      omega
    rw [toggleLike_of_not_mem hnm]
    by_cases hx : x = uid
    · subst hx
      simp [hm]
    · simp [List.mem_append, List.mem_erase_of_ne hx, hx]
  · rw [toggleLike_of_not_mem hm]
    have hmem : uid ∈ likes ++ [uid] := by simp
    rw [toggleLike_of_mem hmem, List.erase_append_right _ hm]
    simp

/-- Witness for C6 on a concrete likes list. -/
theorem like_toggle_twice_restores_membership_witness :
    (7 ∈ ([7] : List Nat) → toggleLike 7 [7] = ([7] : List Nat).erase 7) ∧
    (7 ∉ ([7] : List Nat) → toggleLike 7 [7] = [7] ++ [7]) ∧
    (∀ x, x ∈ toggleLike 7 (toggleLike 7 [7]) ↔ x ∈ ([7] : List Nat)) :=
  like_toggle_twice_restores_membership 7 [7] (by decide)

/-! ## C7: each user id appears at most once in a likes list -/

theorem toggleLike_nodup (uid : Nat) {likes : List Nat} (h : likes.Nodup) :
    (toggleLike uid likes).Nodup := by
  by_cases hm : uid ∈ likes
  · rw [toggleLike_of_mem hm]
    exact h.erase uid
  · rw [toggleLike_of_not_mem hm]
    rw [List.nodup_append]
    refine ⟨h, List.nodup_singleton uid, ?_⟩
    intro a ha hb
    rw [List.mem_singleton] at hb
    subst hb
    exact hm ha

/-- C7: a freshly created feed post has an empty likes list, and the
at-most-once (no-duplicates) invariant on likes is preserved by
`toggleLike`, hence holds after any sequence of like-toggles starting from
a fresh post. -/
theorem likes_at_most_once_invariant
    (uid : Nat) (likes : List Nat) (h : likes.Nodup) :
    (toggleLike uid likes).Nodup ∧
    (∀ (pid : Nat) (imageUrl caption : String) (now creator : Nat),
      (mkFeedPost pid imageUrl caption now creator).likes = []) ∧
    (∀ callers : List Nat,
      (callers.foldl (fun l u => toggleLike u l) []).Nodup) := by
  refine ⟨toggleLike_nodup uid h, fun _ _ _ _ _ => rfl, ?_⟩
  intro callers
  have aux : ∀ (cs : List Nat) (l : List Nat), l.Nodup →
      (cs.foldl (fun l u => toggleLike u l) l).Nodup := by
    intro cs
    induction cs with
    | nil => exact fun l hl => hl
    | cons c cs ih => exact fun l hl => ih _ (toggleLike_nodup c hl)
  exact aux callers [] List.nodup_nil

/-- Witness for C7 on a concrete likes list. -/
theorem likes_at_most_once_invariant_witness :
    (toggleLike 7 [3, 7]).Nodup ∧
    (∀ (pid : Nat) (imageUrl caption : String) (now creator : Nat),
      (mkFeedPost pid imageUrl caption now creator).likes = []) ∧
    (∀ callers : List Nat,
      (callers.foldl (fun l u => toggleLike u l) []).Nodup) :=
  likes_at_most_once_invariant 7 [3, 7] (by decide)

/-! ## C8: non-admin feed creation is forbidden and persists nothing -/

/-- C8: an authenticated caller whose role is not "admin" gets 403 from
POST /api/feed and the store — in particular the feed collection — is
unchanged. -/
theorem nonadmin_feed_create_forbidden
    (st : Store) (secret : String) (hdr : Option Token)
    (imageUrl caption : String) (now : Nat) (user : User)
    (hauth : authenticate st secret hdr = Except.ok user)
    (hrole : user.role ≠ "admin") :
    (createFeedPost st secret hdr imageUrl caption now).1.status = 403 ∧
    (createFeedPost st secret hdr imageUrl caption now).2 = st := by
  have hbne : (user.role != "admin") = true := bne_iff_ne.mpr hrole
  simp [createFeedPost, hauth, hbne]

/-- Witness for C8: the non-admin `alice` cannot create a feed post. -/
theorem nonadmin_feed_create_forbidden_witness :
    (createFeedPost feedStore "s" (some (jwtSign 0 "s")) "i" "c" 5).1.status = 403 ∧
    (createFeedPost feedStore "s" (some (jwtSign 0 "s")) "i" "c" 5).2 = feedStore :=
  nonadmin_feed_create_forbidden feedStore "s" (some (jwtSign 0 "s")) "i" "c" 5
    alice rfl (by decide)

/-! ## C9: addComment errors and frame condition -/

/-- C9: addComment rejects empty text with 400 and a missing post with 404
(store untouched in both cases); on success it appends exactly one comment
(author = caller, the given text, timestamp now) at the end of the found
comment list of the found post, and in both the returned and the persisted post every
other field — imageUrl, caption, likes, createdBy, createdAt, and all
pre-existing comments — is unchanged. -/
theorem add_comment_spec
    (st : Store) (secret : String) (hdr : Option Token) (postId : Nat)
    (text : String) (now : Nat) (user : User)
    (hauth : authenticate st secret hdr = Except.ok user) :
    (text = "" →
      (addComment st secret hdr postId text now).1.status = 400 ∧
      (addComment st secret hdr postId text now).2 = st) ∧
    (text ≠ "" → findFeedById st postId = none →
      (addComment st secret hdr postId text now).1.status = 404 ∧
      (addComment st secret hdr postId text now).2 = st) ∧
    (∀ post, text ≠ "" → findFeedById st postId = some post →
      (addComment st secret hdr postId text now).1.status = 200 ∧
      (addComment st secret hdr postId text now).1.post =
        some { post with comments :=
                 post.comments ++ [{ user := user.id, text := text, createdAt := now }] } ∧
      (addComment st secret hdr postId text now).2.feed =
        st.feed.map (fun p =>
          if p.id == postId then
            { post with comments :=
                post.comments ++ [{ user := user.id, text := text, createdAt := now }] }
          else p)) := by
  refine ⟨?_, ?_, ?_⟩
  · intro ht
    subst ht
    simp [addComment, hauth, String.isEmpty_iff]
  · intro ht hnone
    simp [addComment, hauth, isEmpty_eq_false_of_ne ht, hnone]
  · intro post ht hsome
    simp [addComment, hauth, isEmpty_eq_false_of_ne ht, hsome]

/-- Witness for C9: a successful comment on the stored post `wPost`. -/
theorem add_comment_spec_witness :
    (addComment feedStore "s" (some (jwtSign 0 "s")) 1 "nice" 5).1.status = 200 ∧
    (addComment feedStore "s" (some (jwtSign 0 "s")) 1 "nice" 5).1.post =
      some { wPost with comments :=
               wPost.comments ++ [{ user := alice.id, text := "nice", createdAt := 5 }] } ∧
    (addComment feedStore "s" (some (jwtSign 0 "s")) 1 "nice" 5).2.feed =
      feedStore.feed.map (fun p =>
        if p.id == 1 then
          { wPost with comments :=
              wPost.comments ++ [{ user := alice.id, text := "nice", createdAt := 5 }] }
        else p) :=
  (add_comment_spec feedStore "s" (some (jwtSign 0 "s")) 1 "nice" 5 alice rfl).2.2
    wPost (by decide) rfl

/-! ## C10: empty-text 400 takes precedence over missing-post 404 -/

/-- C10: the empty-text check runs before the post lookup, so a request
with empty text gets 400 even when the post id resolves to no FeedPost. -/
theorem empty_text_precedes_missing_post
    (st : Store) (secret : String) (hdr : Option Token) (postId : Nat)
    (now : Nat) (user : User)
    (hauth : authenticate st secret hdr = Except.ok user)
    (hmissing : findFeedById st postId = none) :
    (addComment st secret hdr postId "" now).1.status = 400 ∧
    (addComment st secret hdr postId "" now).2 = st := by
  simp [addComment, hauth, String.isEmpty_iff]

/-- Witness for C10: empty text against a post id that resolves to no
post still yields 400. -/
theorem empty_text_precedes_missing_post_witness :
    (addComment feedStore "s" (some (jwtSign 0 "s")) 99 "" 5).1.status = 400 ∧
    (addComment feedStore "s" (some (jwtSign 0 "s")) 99 "" 5).2 = feedStore :=
  empty_text_precedes_missing_post feedStore "s" (some (jwtSign 0 "s")) 99 5
    alice rfl rfl

end TWS
